import Mathlib

/-!
Verification of the `insales_check_payment` service.

This file gives a shallow embedding of the parts of the repository that the
checked properties talk about:

* `app/models.py` — the `Account` and `TelegramChat` rows (audit timestamps
  and surrogate chat ids are omitted: no property mentions them);
* `app/repositories.py` — `AccountRepository` and `ChatRepository`, modelled
  as pure functions over a list of rows standing for the database table.
  The UNIQUE constraint on `accounts.shop_domain` (models.py line 17) is what
  `AccountRepository.add_account` checks before inserting;
* `app/services/insales.py` — the response-parsing tail of
  `InsalesClient.fetch_account` (lines 31–39), over a small JSON model;
  the HTTP round-trip itself is external input;
* `app/services/notifier.py` — `PaymentNotifier.notify_due_payments`;
* `app/telegram_bot/bot.py` — `TelegramBot.add_account_api_password`
  (the final registration step, lines 161–202) and
  `TelegramBot._register_chat` (lines 310–324).

Calendar dates in the notifier are modelled as proleptic-Gregorian ordinal
day numbers (`Int`): Python's `(d1 - d2).days` on two `date` values is
exactly `d1.toordinal() - d2.toordinal()`.  The InSales client call made by
the notifier is abstracted as an oracle from the credentials it is given
(`domain`, `api_key`, `password`) to either an error (`httpx.HTTPError` or
`ValueError`, the two classes caught at notifier.py line 55) or the parsed
`paid_till` value.
-/

namespace InsalesCheck

/-- A Python `datetime.date`, used by the InSales response parser. -/
structure PyDate where
  year : Nat
  month : Nat
  day : Nat
deriving DecidableEq, Repr

/-- Minimal JSON value model for the `response.json()` payload. -/
inductive Json where
  | null
  | bool (b : Bool)
  | num (n : Int)
  | str (s : String)
  | arr (elems : List Json)
  | obj (fields : List (String × Json))

/-- Python truthiness of a JSON value (`if paid_till_str:` at insales.py 38). -/
def Json.truthy : Json → Bool
  | .null => false
  | .bool b => b
  | .num n => n != 0
  | .str s => s != ""
  | .arr elems => !elems.isEmpty
  | .obj fields => !fields.isEmpty

/-- `dict.get` on a JSON object's field list (keys of a dict are unique). -/
def Json.get (fields : List (String × Json)) (key : String) : Option Json :=
  (fields.find? (fun kv => kv.1 == key)).map (fun kv => kv.2)

/-- The numeric value of an ASCII digit character. -/
def digitVal (c : Char) : Nat := c.toNat - 48

def isLeapYear (y : Nat) : Bool := (y % 4 == 0 && y % 100 != 0) || y % 400 == 0

def daysInMonth (y m : Nat) : Nat :=
  if m == 2 then (if isLeapYear y then 29 else 28)
  else if m == 4 || m == 6 || m == 9 || m == 11 then 30
  else 31

/-- Python `date.fromisoformat`: accepts exactly `YYYY-MM-DD` (ten
characters, two dashes, digits elsewhere) naming a valid calendar date with
year ≥ 1; anything else raises `ValueError`, modelled as `none`. -/
def fromisoformat (s : String) : Option PyDate :=
  match s.toList with
  | [y1, y2, y3, y4, s1, m1, m2, s2, d1, d2] =>
    if y1.isDigit && y2.isDigit && y3.isDigit && y4.isDigit && s1 == '-' &&
       m1.isDigit && m2.isDigit && s2 == '-' && d1.isDigit && d2.isDigit then
      let y := ((digitVal y1 * 10 + digitVal y2) * 10 + digitVal y3) * 10 + digitVal y4
      let m := digitVal m1 * 10 + digitVal m2
      let d := digitVal d1 * 10 + digitVal d2
      if 1 ≤ y && 1 ≤ m && m ≤ 12 && 1 ≤ d && d ≤ daysInMonth y m then
        some ⟨y, m, d⟩
      else none
    else none
  | _ => none

/-- `InsalesAccountInfo` (insales.py lines 12–14). -/
structure InsalesAccountInfo where
  paid_till : Option PyDate
deriving DecidableEq, Repr

/-- A Python exception escaping the parsing code: `ValueError` from
`date.fromisoformat` on a malformed string, `TypeError` when it is applied
to a non-string truthy value. -/
inductive PyError where
  | valueError
  | typeError
deriving DecidableEq, Repr

namespace InsalesClient

/-- insales.py lines 31–35: pick the nested `account` object if present and
a dict, otherwise the payload root; a non-dict payload gives `{}`. -/
def account_data_of (payload : Json) : List (String × Json) :=
  match payload with
  | .obj fields =>
    match Json.get fields "account" with
    | some (.obj nested) => nested
    | _ => fields
  | _ => []

/-- insales.py lines 31–39: the parsing tail of `InsalesClient.fetch_account`
after a successful HTTP round-trip delivering `payload`.
`paid_till = date.fromisoformat(paid_till_str) if paid_till_str else None`. -/
def fetch_account_parse (payload : Json) : Except PyError InsalesAccountInfo :=
  let account_data := account_data_of payload
  match Json.get account_data "paid_till" with
  | some v =>
    if v.truthy then
      match v with
      | .str s =>
        match fromisoformat s with
        | some d => .ok ⟨some d⟩
        | none => .error .valueError
      | _ => .error .typeError
    else .ok ⟨none⟩
  | none => .ok ⟨none⟩

end InsalesClient

/-- An `accounts` row (models.py lines 12–24; audit timestamps omitted).
`paid_till` and `last_notified_at` are ordinal day numbers. -/
structure Account where
  id : Nat
  title : String
  shop_domain : String
  api_key : String
  api_password : String
  paid_till : Option Int
  notifications_enabled : Bool
  last_notified_at : Option Int
deriving DecidableEq, Repr

/-- A `telegram_chats` row (models.py lines 27–38; surrogate id and audit
timestamps omitted — `chat_id` is UNIQUE and is the key every operation
uses). -/
structure TelegramChat where
  chat_id : String
  username : Option String
  first_name : Option String
  last_name : Option String
  is_admin : Bool
  is_super_admin : Bool
deriving DecidableEq, Repr

namespace AccountRepository

/-- repositories.py lines 16–18: `select(Account).order_by(Account.title)`. -/
def list_accounts (store : List Account) : List Account :=
  store.mergeSort (fun a b => decide (a.title ≤ b.title))

/-- repositories.py lines 49–53. -/
def update_paid_till (account : Account) (paid_till : Option Int) : Account :=
  { account with paid_till := paid_till }

/-- repositories.py lines 61–65. -/
def update_last_notified (account : Account) (notification_date : Int) : Account :=
  { account with last_notified_at := some notification_date }

/-- repositories.py lines 28–47: insert a new row; committing violates the
UNIQUE constraint on `shop_domain` (models.py line 17) exactly when a row
with that domain already exists, raising `IntegrityError` (`.error ()`).
`notifications_enabled` defaults to true, `last_notified_at` to NULL. -/
def add_account (store : List Account) (nextId : Nat)
    (title shop_domain api_key api_password : String)
    (paid_till : Option Int) : Except Unit (List Account) :=
  if store.any (fun acc => acc.shop_domain == shop_domain) then
    .error ()
  else
    .ok (store ++ [{ id := nextId, title := title, shop_domain := shop_domain,
                     api_key := api_key, api_password := api_password,
                     paid_till := paid_till, notifications_enabled := true,
                     last_notified_at := none }])

end AccountRepository

namespace ChatRepository

/-- repositories.py lines 108–110: `select(TelegramChat)` — every row. -/
def list_chats (store : List TelegramChat) : List TelegramChat :=
  store

/-- repositories.py lines 112–116: rows with `is_admin IS TRUE`. -/
def list_admin_chats (store : List TelegramChat) : List TelegramChat :=
  store.filter (fun c => c.is_admin)

/-- repositories.py lines 118–120. -/
def get_chat (store : List TelegramChat) (chat_id : String) : Option TelegramChat :=
  store.find? (fun c => c.chat_id == chat_id)

/-- ORM mutation of the row found by `find?`: replace the first row matching
`p` (chat_id is UNIQUE, so at most one row matches). -/
def replaceFirst (p : TelegramChat → Bool) (x : TelegramChat) :
    List TelegramChat → List TelegramChat
  | [] => []
  | c :: cs => if p c then x :: cs else c :: replaceFirst p x cs

/-- repositories.py lines 98–103: the optional-flag assignments and the
super-admin fix-up of `upsert_chat`.  `bool(is_admin)` is the identity here
because the flags are already `Bool`. -/
def applyFlagUpdates (chat : TelegramChat) (is_admin is_super_admin : Option Bool) :
    TelegramChat :=
  let chat := match is_admin with
    | some b => { chat with is_admin := b }
    | none => chat
  let chat := match is_super_admin with
    | some b => { chat with is_super_admin := b }
    | none => chat
  if chat.is_super_admin && !chat.is_admin then { chat with is_admin := true } else chat

/-- repositories.py lines 72–106: update the names of an existing row (found
by `chat_id`) or insert a fresh one with flag defaults `False`, then apply
the optional flag arguments and the super-admin fix-up.  Returns the new
table and the upserted row. -/
def upsert_chat (store : List TelegramChat) (chat_id : String)
    (username first_name last_name : Option String)
    (is_admin is_super_admin : Option Bool) : List TelegramChat × TelegramChat :=
  match store.find? (fun c => c.chat_id == chat_id) with
  | some chat =>
    let chat :=
      { chat with
        username := username
        first_name := first_name
        last_name := last_name }
    let chat := applyFlagUpdates chat is_admin is_super_admin
    (replaceFirst (fun c => c.chat_id == chat_id) chat store, chat)
  | none =>
    let chat : TelegramChat :=
      { chat_id := chat_id, username := username, first_name := first_name,
        last_name := last_name, is_admin := is_admin.getD false,
        is_super_admin := is_super_admin.getD false }
    let chat := applyFlagUpdates chat is_admin is_super_admin
    (store ++ [chat], chat)

/-- repositories.py lines 122–133: returns the new table plus the Python
`(chat | None, updated)` pair; a super admin always retains admin rights. -/
def set_admin_status (store : List TelegramChat) (chat_id : String)
    (is_admin : Bool) : List TelegramChat × Option TelegramChat × Bool :=
  match store.find? (fun c => c.chat_id == chat_id) with
  | none => (store, none, false)
  | some chat =>
    if chat.is_super_admin then
      (store, some chat, false)
    else
      let chat := { chat with is_admin := is_admin }
      (replaceFirst (fun c => c.chat_id == chat_id) chat store, some chat, true)

end ChatRepository

/-- The two exception classes the notifier catches around the InSales call
(notifier.py line 55): `httpx.HTTPError` and `ValueError`. -/
inductive FetchErr where
  | httpError
  | valueError
deriving DecidableEq, Repr

/-- Oracle for `InsalesClient.fetch_account`, keyed by the credentials the
notifier passes (notifier.py lines 50–54): domain, api_key, password. -/
abbrev FetchFn := String → String → String → Except FetchErr (Option Int)

/-- The three message shapes composed at notifier.py lines 73–89, carrying
the data they interpolate (`paid_till`, and for due-soon the day count). -/
inductive MsgKind where
  | overdue (paid_till : Int)
  | dueSoon (paid_till : Int) (days_left : Int)
  | dueToday (paid_till : Int)
deriving DecidableEq, Repr

/-- One `broadcast_message` call (notifier.py line 93): the composed message
and the recipient list handed to `TelegramNotifier.broadcast_message`, which
attempts delivery to every chat in it (bot.py lines 45–50). -/
structure Broadcast where
  kind : MsgKind
  accountTitle : String
  recipients : List TelegramChat
deriving DecidableEq, Repr

namespace PaymentNotifier

/-- The body of the per-account loop of `notify_due_payments`
(notifier.py lines 44–94): skip disabled accounts; refresh `paid_till` from
InSales (skipping on `httpx.HTTPError`/`ValueError`); persist the fetched
value when it differs; skip when the (refreshed) expiry is NULL; classify on
`days_left` and, unless already notified today, emit the message and record
today in `last_notified_at`.  Returns the account row as left in the store
and the message emitted for it, if any. -/
def processAccount (today : Int) (fetch : FetchFn) (account : Account) :
    Account × Option MsgKind :=
  if !account.notifications_enabled then
    (account, none)
  else
    match fetch account.shop_domain account.api_key account.api_password with
    | .error _ => (account, none)
    | .ok fetched =>
      let account :=
        if fetched != account.paid_till then
          AccountRepository.update_paid_till account fetched
        else account
      match account.paid_till with
      | none => (account, none)
      | some paid_till =>
        let days_left := paid_till - today
        if days_left < 0 then
          if account.last_notified_at == some today then (account, none)
          else (AccountRepository.update_last_notified account today,
                some (.overdue paid_till))
        else if days_left ≤ 7 then
          if account.last_notified_at == some today then (account, none)
          else if days_left > 0 then
            (AccountRepository.update_last_notified account today,
             some (.dueSoon paid_till days_left))
          else
            (AccountRepository.update_last_notified account today,
             some (.dueToday paid_till))
        else (account, none)

/-- The `for account in accounts:` loop (notifier.py lines 44–94) over an
already-loaded account list: each emitted message is broadcast to the `chats`
list loaded once before the loop. -/
def sweepAccounts (today : Int) (fetch : FetchFn) (chats : List TelegramChat) :
    List Account → List Account × List Broadcast
  | [] => ([], [])
  | account :: rest =>
    let step := processAccount today fetch account
    let tail := sweepAccounts today fetch chats rest
    match step.2 with
    | some kind =>
      (step.1 :: tail.1,
       { kind := kind, accountTitle := step.1.title, recipients := chats } :: tail.2)
    | none => (step.1 :: tail.1, tail.2)

/-- The persisted state the sweep touches: the `accounts` and
`telegram_chats` tables. -/
structure Db where
  accounts : List Account
  chats : List TelegramChat
deriving DecidableEq, Repr

/-- `PaymentNotifier.notify_due_payments` (notifier.py lines 31–94): load the
accounts ordered by title (stop if none), load ALL chats via
`chat_repo.list_chats()` (stop if none), then run the per-account loop.
Returns the updated store and the list of broadcasts made. -/
def notify_due_payments (today : Int) (fetch : FetchFn) (db : Db) :
    Db × List Broadcast :=
  let accounts := AccountRepository.list_accounts db.accounts
  if accounts.isEmpty then (db, [])
  else
    let chats := ChatRepository.list_chats db.chats
    if chats.isEmpty then (db, [])
    else
      let res := sweepAccounts today fetch chats accounts
      ({ db with accounts := res.1 }, res.2)

end PaymentNotifier

namespace TelegramBot

/-- Outcome of the final registration step, as reported to the user. -/
inductive RegResult where
  | fetchFailed
  | alreadyExists
  | saved
deriving DecidableEq, Repr

/-- `TelegramBot.add_account_api_password` (bot.py lines 161–202), the final
step of the add-account conversation, with the collected fields and the
outcome of the validating `fetch_account` call as inputs: a fetch failure
aborts with no write; an `IntegrityError` from the insert is rolled back and
reported as "already exists"; otherwise the row is saved. -/
def add_account_api_password (store : List Account) (nextId : Nat)
    (fetch_result : Except FetchErr (Option Int))
    (title shop_domain api_key api_password : String) : List Account × RegResult :=
  match fetch_result with
  | .error _ => (store, .fetchFailed)
  | .ok paid_till =>
    match AccountRepository.add_account store nextId title shop_domain
        api_key api_password paid_till with
    | .error _ => (store, .alreadyExists)
    | .ok store' => (store', .saved)

/-- `TelegramBot._register_chat` (bot.py lines 310–324): upsert the chat,
passing `is_admin` and `is_super_admin` as the comparison of the chat id
with the configured super-admin id, and return the resulting flags. -/
def register_chat (super_admin_chat_id : String) (store : List TelegramChat)
    (chat_id : String) (username first_name last_name : Option String) :
    List TelegramChat × Bool × Bool :=
  let res := ChatRepository.upsert_chat store chat_id username first_name last_name
      (some (chat_id == super_admin_chat_id)) (some (chat_id == super_admin_chat_id))
  (res.1, res.2.is_admin, res.2.is_super_admin)

end TelegramBot

/-! Concrete rows and oracles used by the closed instances below. -/

/-- An admin chat row. -/
def adminChatC1 : TelegramChat :=
  { chat_id := "100", username := none, first_name := none, last_name := none,
    is_admin := true, is_super_admin := false }

/-- A chat row without the admin flag. -/
def plainChatC1 : TelegramChat :=
  { chat_id := "200", username := none, first_name := none, last_name := none,
    is_admin := false, is_super_admin := false }

/-- An enabled account two days from expiry on day 8. -/
def accountC1 : Account :=
  { id := 1, title := "Shop", shop_domain := "shop.example", api_key := "k",
    api_password := "p", paid_till := some 10, notifications_enabled := true,
    last_notified_at := none }

/-- Store with one account and one admin plus one non-admin chat. -/
def dbC1 : PaymentNotifier.Db :=
  { accounts := [accountC1], chats := [adminChatC1, plainChatC1] }

/-- Oracle: InSales reports expiry on day 10 for every account. -/
def fetchC1 : FetchFn := fun _ _ _ => .ok (some 10)

/-- An enabled account with empty cache, paired with `fetchW2`. -/
def accW2 : Account :=
  { id := 2, title := "A", shop_domain := "a.example", api_key := "k",
    api_password := "p", paid_till := none, notifications_enabled := true,
    last_notified_at := none }

/-- Oracle: InSales reports expiry on day 5. -/
def fetchW2 : FetchFn := fun _ _ _ => .ok (some 5)

/-- An account already notified on day 0. -/
def accW3 : Account :=
  { id := 3, title := "B", shop_domain := "b.example", api_key := "k",
    api_password := "p", paid_till := some 3, notifications_enabled := true,
    last_notified_at := some 0 }

/-- Store for the idempotence instance. -/
def dbW3 : PaymentNotifier.Db :=
  { accounts := [accountC1], chats := [adminChatC1] }

/-- Oracle: every fetch fails with an HTTP error. -/
def fetchErrW : FetchFn := fun _ _ _ => .error .httpError

/-- An enabled account with a cached expiry, for the fetch-failure instance. -/
def accW5 : Account :=
  { id := 5, title := "C", shop_domain := "c.example", api_key := "k",
    api_password := "p", paid_till := some 1, notifications_enabled := true,
    last_notified_at := none }

/-- An account with notifications switched off. -/
def accW6 : Account :=
  { id := 6, title := "D", shop_domain := "d.example", api_key := "k",
    api_password := "p", paid_till := some 0, notifications_enabled := false,
    last_notified_at := none }

/-- The super-admin chat row. -/
def superChatW : TelegramChat :=
  { chat_id := "999", username := none, first_name := none, last_name := none,
    is_admin := true, is_super_admin := true }

/-- A previously granted (non-super) admin chat with id "123". -/
def grantedAdminW : TelegramChat :=
  { chat_id := "123", username := none, first_name := none, last_name := none,
    is_admin := true, is_super_admin := false }

/-! Helper lemmas about the embedded operations. -/

theorem update_if_ne (a : Account) (pt : Option Int) :
    (if pt != a.paid_till then AccountRepository.update_paid_till a pt else a) =
      { a with paid_till := pt } := by
  split
  · rfl
  · rename_i h
    have h2 : pt = a.paid_till := by simpa using h
    rw [h2]

namespace PaymentNotifier

theorem processAccount_fields (today : Int) (fetch : FetchFn) (a : Account) :
    (processAccount today fetch a).1.shop_domain = a.shop_domain ∧
    (processAccount today fetch a).1.api_key = a.api_key ∧
    (processAccount today fetch a).1.api_password = a.api_password ∧
    (processAccount today fetch a).1.notifications_enabled = a.notifications_enabled ∧
    (processAccount today fetch a).1.title = a.title := by
  unfold processAccount
  repeat' split
  all_goals simp_all [AccountRepository.update_paid_till, AccountRepository.update_last_notified]
  all_goals repeat' split
  all_goals simp_all

theorem processAccount_paid_till (today : Int) (fetch : FetchFn) (a : Account)
    (pt : Option Int) (he : a.notifications_enabled = true)
    (hf : fetch a.shop_domain a.api_key a.api_password = .ok pt) :
    (processAccount today fetch a).1.paid_till = pt := by
  unfold processAccount
  repeat' split
  all_goals simp_all [AccountRepository.update_paid_till, AccountRepository.update_last_notified]
  all_goals repeat' split
  all_goals simp_all

theorem processAccount_last_notified (today : Int) (fetch : FetchFn) (a : Account)
    (pt : Option Int) (he : a.notifications_enabled = true)
    (hf : fetch a.shop_domain a.api_key a.api_password = .ok pt) :
    ∀ d, pt = some d → d - today ≤ 7 →
      (processAccount today fetch a).1.last_notified_at = some today := by
  intro d hd hle
  unfold processAccount
  repeat' split
  all_goals simp_all [AccountRepository.update_paid_till, AccountRepository.update_last_notified]
  all_goals repeat' split
  all_goals simp_all
  all_goals omega

theorem processAccount_settled (today : Int) (fetch : FetchFn) (b : Account)
    (he : b.notifications_enabled = true)
    (hf : fetch b.shop_domain b.api_key b.api_password = .ok b.paid_till)
    (hl : ∀ d, b.paid_till = some d → d - today ≤ 7 → b.last_notified_at = some today) :
    processAccount today fetch b = (b, none) := by
  unfold processAccount
  repeat' split
  all_goals simp_all [AccountRepository.update_paid_till, AccountRepository.update_last_notified]
  all_goals repeat' split
  all_goals simp_all
  all_goals omega

theorem processAccount_disabled (today : Int) (fetch : FetchFn) (a : Account)
    (h : a.notifications_enabled = false) :
    processAccount today fetch a = (a, none) := by
  simp [processAccount, h]

theorem processAccount_fetch_error (today : Int) (fetch : FetchFn) (a : Account)
    (e : FetchErr)
    (h : fetch a.shop_domain a.api_key a.api_password = .error e) :
    processAccount today fetch a = (a, none) := by
  unfold processAccount
  split
  · rfl
  · rw [h]

theorem processAccount_suppressed (today : Int) (fetch : FetchFn) (a : Account)
    (h : a.last_notified_at = some today) :
    (processAccount today fetch a).2 = none := by
  unfold processAccount
  repeat' split
  all_goals simp_all [AccountRepository.update_paid_till, AccountRepository.update_last_notified]
  all_goals (split <;> rfl)

theorem processAccount_idem (today : Int) (fetch : FetchFn) (a : Account) :
    processAccount today fetch ((processAccount today fetch a).1) =
      ((processAccount today fetch a).1, none) := by
  obtain ⟨hdom, hkey, hpass, hen, -⟩ := processAccount_fields today fetch a
  by_cases he : a.notifications_enabled
  · rcases hfetch : fetch a.shop_domain a.api_key a.api_password with e | pt
    · rw [processAccount_fetch_error today fetch a e hfetch]
      exact processAccount_fetch_error today fetch a e hfetch
    · apply processAccount_settled
      · rw [hen, he]
      · rw [hdom, hkey, hpass, hfetch,
          processAccount_paid_till today fetch a pt he hfetch]
      · intro d hd hle
        rw [processAccount_paid_till today fetch a pt he hfetch] at hd
        exact processAccount_last_notified today fetch a pt he hfetch d hd hle
  · rw [processAccount_disabled today fetch a (by simpa using he)]
    exact processAccount_disabled today fetch a (by simpa using he)

theorem processAccount_unknown_overwrites (today : Int) (fetch : FetchFn) (a : Account)
    (he : a.notifications_enabled = true)
    (hf : fetch a.shop_domain a.api_key a.api_password = .ok none) :
    processAccount today fetch a = ({ a with paid_till := none }, none) := by
  simp only [processAccount, he, hf, update_if_ne, Bool.not_true, Bool.false_eq_true,
    if_false]

theorem sweepAccounts_fst (today : Int) (fetch : FetchFn) (chats : List TelegramChat)
    (l : List Account) :
    (sweepAccounts today fetch chats l).1 =
      l.map (fun a => (processAccount today fetch a).1) := by
  induction l with
  | nil => rfl
  | cons a rest ih =>
    simp only [sweepAccounts, List.map]
    split <;> simp [ih]

theorem sweepAccounts_no_msgs (today : Int) (fetch : FetchFn) (chats : List TelegramChat)
    (l : List Account) (h : ∀ a ∈ l, (processAccount today fetch a).2 = none) :
    (sweepAccounts today fetch chats l).2 = [] := by
  induction l with
  | nil => rfl
  | cons a rest ih =>
    have ha := h a (by simp)
    simp only [sweepAccounts]
    split
    · simp_all
    · exact ih (fun x hx => h x (by simp [hx]))

theorem sweepAccounts_append (today : Int) (fetch : FetchFn) (chats : List TelegramChat)
    (l1 l2 : List Account) :
    sweepAccounts today fetch chats (l1 ++ l2) =
      ((sweepAccounts today fetch chats l1).1 ++ (sweepAccounts today fetch chats l2).1,
       (sweepAccounts today fetch chats l1).2 ++ (sweepAccounts today fetch chats l2).2) := by
  induction l1 with
  | nil => rfl
  | cons a rest ih =>
    simp only [List.cons_append, sweepAccounts]
    split <;> simp [ih]

theorem sweepAccounts_cons_none (today : Int) (fetch : FetchFn) (chats : List TelegramChat)
    (a a2 : Account) (l : List Account)
    (h : processAccount today fetch a = (a2, none)) :
    sweepAccounts today fetch chats (a :: l) =
      (a2 :: (sweepAccounts today fetch chats l).1,
       (sweepAccounts today fetch chats l).2) := by
  simp [sweepAccounts, h]

theorem notify_idem (today : Int) (fetch : FetchFn) (db : Db) :
    (notify_due_payments today fetch (notify_due_payments today fetch db).1).2 = [] := by
  by_cases h1 : (AccountRepository.list_accounts db.accounts).isEmpty
  · simp [notify_due_payments, h1]
  · by_cases h2 : (ChatRepository.list_chats db.chats).isEmpty
    · simp [notify_due_payments, h1, h2]
    · simp only [notify_due_payments, h1, h2, if_false, Bool.false_eq_true]
      by_cases h3 : (AccountRepository.list_accounts
          (sweepAccounts today fetch (ChatRepository.list_chats db.chats)
            (AccountRepository.list_accounts db.accounts)).1).isEmpty
      · simp [h3]
      · simp only [h3, if_false, Bool.false_eq_true, h2]
        apply sweepAccounts_no_msgs
        intro x hx
        rw [AccountRepository.list_accounts, List.mem_mergeSort, sweepAccounts_fst,
          List.mem_map] at hx
        obtain ⟨b, -, rfl⟩ := hx
        rw [processAccount_idem]

end PaymentNotifier

theorem applyFlagUpdates_inv (c : TelegramChat) (ia isa : Option Bool) :
    (ChatRepository.applyFlagUpdates c ia isa).is_super_admin = true →
    (ChatRepository.applyFlagUpdates c ia isa).is_admin = true := by
  unfold ChatRepository.applyFlagUpdates
  repeat' split
  all_goals intro h
  all_goals dsimp only at h ⊢
  all_goals split_ifs at h ⊢ <;> simp_all

theorem mem_replaceFirst (p : TelegramChat → Bool) (x y : TelegramChat)
    (l : List TelegramChat) (h : y ∈ ChatRepository.replaceFirst p x l) :
    y = x ∨ y ∈ l := by
  induction l with
  | nil => exact absurd h (by simp [ChatRepository.replaceFirst])
  | cons c cs ih =>
    simp only [ChatRepository.replaceFirst] at h
    split at h
    · rcases List.mem_cons.1 h with h1 | h1
      · exact Or.inl h1
      · exact Or.inr (List.mem_cons_of_mem _ h1)
    · rcases List.mem_cons.1 h with h1 | h1
      · exact Or.inr (h1 ▸ List.mem_cons_self _ _)
      · rcases ih h1 with h2 | h2
        · exact Or.inl h2
        · exact Or.inr (List.mem_cons_of_mem _ h2)

theorem upsert_chat_inv (store : List TelegramChat) (cid : String)
    (u f l : Option String) (ia isa : Option Bool)
    (hinv : ∀ c ∈ store, c.is_super_admin = true → c.is_admin = true) :
    (∀ c ∈ (ChatRepository.upsert_chat store cid u f l ia isa).1,
        c.is_super_admin = true → c.is_admin = true) ∧
    ((ChatRepository.upsert_chat store cid u f l ia isa).2.is_super_admin = true →
      (ChatRepository.upsert_chat store cid u f l ia isa).2.is_admin = true) := by
  unfold ChatRepository.upsert_chat
  split
  · constructor
    · intro c hc
      rcases mem_replaceFirst _ _ _ _ hc with h1 | h1
      · exact h1 ▸ applyFlagUpdates_inv _ _ _
      · exact hinv c h1
    · exact applyFlagUpdates_inv _ _ _
  · constructor
    · intro c hc
      rcases List.mem_append.1 hc with h1 | h1
      · exact hinv c h1
      · rcases List.mem_singleton.1 h1 with rfl
        exact applyFlagUpdates_inv _ _ _
    · exact applyFlagUpdates_inv _ _ _

theorem set_admin_status_super (store : List TelegramChat) (cid : String) (b : Bool)
    (c : TelegramChat)
    (hfind : store.find? (fun x => x.chat_id == cid) = some c)
    (hsup : c.is_super_admin = true) :
    ChatRepository.set_admin_status store cid b = (store, some c, false) := by
  simp [ChatRepository.set_admin_status, hfind, hsup]

/-! The checked properties. -/

/-- Claim C1.  The claim says the sweep's broadcast recipients are exactly the
admin subset of the persisted chats.  The code instead loads the recipients
with `ChatRepository.list_chats()` (notifier.py line 40) — every persisted
chat — and `list_admin_chats` is never called: on a store holding an admin
chat and a non-admin chat, the one due-soon broadcast is delivered to both,
although the admin subset is just `[adminChatC1]`. -/
theorem sweep_broadcasts_beyond_admin_subset :
    (PaymentNotifier.notify_due_payments 8 fetchC1 dbC1).2 =
      [{ kind := .dueSoon 10 2, accountTitle := "Shop",
         recipients := [adminChatC1, plainChatC1] }] ∧
    plainChatC1.is_admin = false ∧
    ChatRepository.list_admin_chats dbC1.chats = [adminChatC1] := by
  have hs : AccountRepository.list_accounts dbC1.accounts = [accountC1] := by
    simp [AccountRepository.list_accounts, dbC1]
  refine ⟨?_, rfl, by decide⟩
  unfold PaymentNotifier.notify_due_payments
  rw [hs]
  decide

/-- Claim C2.  For an enabled account whose refresh reports expiry day `d`
and which was not already notified today, with `days_left = d - today`:
`days_left < 0` emits the overdue message, `days_left = 0` the distinct
due-today message, `0 < days_left ≤ 7` the due-in-N-days message (recording
today as `last_notified_at` in each case), and `days_left ≥ 8` emits nothing
and leaves the account untouched apart from the `paid_till` refresh. -/
theorem days_left_classification (today : Int) (fetch : FetchFn) (a : Account) (d : Int)
    (he : a.notifications_enabled = true)
    (hf : fetch a.shop_domain a.api_key a.api_password = .ok (some d))
    (hl : a.last_notified_at ≠ some today) :
    (d - today < 0 →
      PaymentNotifier.processAccount today fetch a =
        ({ a with paid_till := some d, last_notified_at := some today },
         some (.overdue d))) ∧
    (d - today = 0 →
      PaymentNotifier.processAccount today fetch a =
        ({ a with paid_till := some d, last_notified_at := some today },
         some (.dueToday d))) ∧
    (0 < d - today → d - today ≤ 7 →
      PaymentNotifier.processAccount today fetch a =
        ({ a with paid_till := some d, last_notified_at := some today },
         some (.dueSoon d (d - today)))) ∧
    (7 < d - today →
      PaymentNotifier.processAccount today fetch a =
        ({ a with paid_till := some d }, none)) := by
  refine ⟨fun h => ?_, fun h => ?_, fun h h7 => ?_, fun h => ?_⟩
  all_goals
    simp only [PaymentNotifier.processAccount, he, hf, update_if_ne, Bool.not_true,
      AccountRepository.update_last_notified]
  all_goals split_ifs <;>
    first
      | rfl
      | (exfalso; omega)
      | (exfalso; simp_all)

/-- Witness for C2: on day 5, an account fetched with expiry day 5 gets the
due-today message and `last_notified_at = 5`. -/
theorem days_left_classification_witness :
    PaymentNotifier.processAccount 5 fetchW2 accW2 =
      ({ accW2 with paid_till := some 5, last_notified_at := some 5 },
       some (.dueToday 5)) :=
  (days_left_classification 5 fetchW2 accW2 5 rfl rfl (by decide)).2.1 (by decide)

/-- Claim C3.  The sweep is idempotent per calendar day: an account whose
`last_notified_at` already equals today is never messaged regardless of
`days_left`, and a second `notify_due_payments` run with the same `today`,
the same fetch outcomes and the store the first run left behind broadcasts
nothing at all — so at most one notification per account per day. -/
theorem sweep_idempotent_per_day (today : Int) (fetch : FetchFn) :
    (∀ a : Account, a.last_notified_at = some today →
      (PaymentNotifier.processAccount today fetch a).2 = none) ∧
    (∀ db : PaymentNotifier.Db,
      (PaymentNotifier.notify_due_payments today fetch
        (PaymentNotifier.notify_due_payments today fetch db).1).2 = []) :=
  ⟨fun a ha => PaymentNotifier.processAccount_suppressed today fetch a ha,
   fun db => PaymentNotifier.notify_idem today fetch db⟩

/-- Witness for C3: an account already notified on day 0 is suppressed, and
re-running the day-0 sweep on the store the first run produced broadcasts
nothing. -/
theorem sweep_idempotent_per_day_witness :
    (PaymentNotifier.processAccount 0 fetchC1 accW3).2 = none ∧
    (PaymentNotifier.notify_due_payments 0 fetchC1
      (PaymentNotifier.notify_due_payments 0 fetchC1 dbW3).1).2 = [] :=
  ⟨(sweep_idempotent_per_day 0 fetchC1).1 accW3 rfl,
   (sweep_idempotent_per_day 0 fetchC1).2 dbW3⟩

/-- Counterexample for C4: on a payload whose `paid_till` is the malformed
date string "31.12.2024", `fetch_account` raises `ValueError` from
`date.fromisoformat` — it does not return an unknown expiry. -/
theorem fetch_account_malformed_cex :
    InsalesClient.fetch_account_parse (.obj [("paid_till", .str "31.12.2024")]) =
      .error .valueError ∧
    InsalesClient.fetch_account_parse (.obj [("paid_till", .str "31.12.2024")]) ≠
      .ok ⟨none⟩ := by
  constructor
  · rfl
  · intro h
    exact Except.noConfusion h

/-- Claim C4 (amended).  A payload with no `paid_till` field yields an
unknown (null) expiry; a payload whose `paid_till` is a non-empty string that
`date.fromisoformat` rejects raises `ValueError` — surfaced to callers as a
fetch failure — rather than yielding unknown. -/
theorem fetch_account_absent_unknown_malformed_raises (payload : Json) :
    (Json.get (InsalesClient.account_data_of payload) "paid_till" = none →
      InsalesClient.fetch_account_parse payload = .ok ⟨none⟩) ∧
    (∀ s, Json.get (InsalesClient.account_data_of payload) "paid_till" = some (.str s) →
      s ≠ "" → fromisoformat s = none →
      InsalesClient.fetch_account_parse payload = .error .valueError) := by
  constructor
  · intro h
    simp [InsalesClient.fetch_account_parse, h]
  · intro s hs hne hbad
    simp [InsalesClient.fetch_account_parse, hs, Json.truthy, hne, hbad]

/-- Witness for C4: an empty payload parses to unknown; a payload with
`paid_till = "garbage"` raises `ValueError`. -/
theorem fetch_account_parse_witness :
    InsalesClient.fetch_account_parse (.obj []) = .ok ⟨none⟩ ∧
    InsalesClient.fetch_account_parse (.obj [("paid_till", .str "garbage")]) =
      .error .valueError :=
  ⟨(fetch_account_absent_unknown_malformed_raises (.obj [])).1 rfl,
   (fetch_account_absent_unknown_malformed_raises
      (.obj [("paid_till", .str "garbage")])).2 "garbage" rfl (by decide) rfl⟩

/-- Claim C5.  When the InSales fetch for an account fails, the sweep leaves
that account's row unchanged (cached expiry and `last_notified_at` intact),
sends no message for it, and processes the surrounding accounts of the round
exactly as it would have: the loop continues with no retry. -/
theorem fetch_failure_skips_account (today : Int) (fetch : FetchFn) (a : Account)
    (e : FetchErr)
    (h : fetch a.shop_domain a.api_key a.api_password = .error e) :
    PaymentNotifier.processAccount today fetch a = (a, none) ∧
    ∀ (chats : List TelegramChat) (l1 l2 : List Account),
      PaymentNotifier.sweepAccounts today fetch chats (l1 ++ a :: l2) =
        ((PaymentNotifier.sweepAccounts today fetch chats l1).1 ++
            a :: (PaymentNotifier.sweepAccounts today fetch chats l2).1,
         (PaymentNotifier.sweepAccounts today fetch chats l1).2 ++
            (PaymentNotifier.sweepAccounts today fetch chats l2).2) := by
  have h1 := PaymentNotifier.processAccount_fetch_error today fetch a e h
  refine ⟨h1, fun chats l1 l2 => ?_⟩
  rw [PaymentNotifier.sweepAccounts_append,
    PaymentNotifier.sweepAccounts_cons_none today fetch chats a a l2 h1]

/-- Witness for C5: with an always-failing fetch, the account with a cached
expiry is returned unchanged with no message, inside a one-element round. -/
theorem fetch_failure_skips_account_witness :
    PaymentNotifier.processAccount 0 fetchErrW accW5 = (accW5, none) ∧
    PaymentNotifier.sweepAccounts 0 fetchErrW [adminChatC1] ([] ++ accW5 :: []) =
      ((PaymentNotifier.sweepAccounts 0 fetchErrW [adminChatC1] []).1 ++
          accW5 :: (PaymentNotifier.sweepAccounts 0 fetchErrW [adminChatC1] []).1,
       (PaymentNotifier.sweepAccounts 0 fetchErrW [adminChatC1] []).2 ++
          (PaymentNotifier.sweepAccounts 0 fetchErrW [adminChatC1] []).2) :=
  ⟨(fetch_failure_skips_account 0 fetchErrW accW5 .httpError rfl).1,
   (fetch_failure_skips_account 0 fetchErrW accW5 .httpError rfl).2 [adminChatC1] [] []⟩

/-- Claim C6.  An account with `notifications_enabled = false` is skipped
before the fetch on every run: for every `today` and every fetch oracle it
produces no message, its row — `last_notified_at` included — is unchanged,
and the rest of the round proceeds as if it were absent. -/
theorem notifications_disabled_never_notified (a : Account)
    (h : a.notifications_enabled = false) (today : Int) (fetch : FetchFn) :
    PaymentNotifier.processAccount today fetch a = (a, none) ∧
    ∀ (chats : List TelegramChat) (l1 l2 : List Account),
      PaymentNotifier.sweepAccounts today fetch chats (l1 ++ a :: l2) =
        ((PaymentNotifier.sweepAccounts today fetch chats l1).1 ++
            a :: (PaymentNotifier.sweepAccounts today fetch chats l2).1,
         (PaymentNotifier.sweepAccounts today fetch chats l1).2 ++
            (PaymentNotifier.sweepAccounts today fetch chats l2).2) := by
  have h1 := PaymentNotifier.processAccount_disabled today fetch a h
  refine ⟨h1, fun chats l1 l2 => ?_⟩
  rw [PaymentNotifier.sweepAccounts_append,
    PaymentNotifier.sweepAccounts_cons_none today fetch chats a a l2 h1]

/-- Witness for C6: a disabled account that is overdue today is untouched and
silent even though the fetch would report its expiry. -/
theorem notifications_disabled_never_notified_witness :
    PaymentNotifier.processAccount 3 fetchC1 accW6 = (accW6, none) ∧
    PaymentNotifier.sweepAccounts 3 fetchC1 [adminChatC1] ([] ++ accW6 :: []) =
      ((PaymentNotifier.sweepAccounts 3 fetchC1 [adminChatC1] []).1 ++
          accW6 :: (PaymentNotifier.sweepAccounts 3 fetchC1 [adminChatC1] []).1,
       (PaymentNotifier.sweepAccounts 3 fetchC1 [adminChatC1] []).2 ++
          (PaymentNotifier.sweepAccounts 3 fetchC1 [adminChatC1] []).2) :=
  ⟨(notifications_disabled_never_notified accW6 rfl 3 fetchC1).1,
   (notifications_disabled_never_notified accW6 rfl 3 fetchC1).2 [adminChatC1] [] []⟩

/-- Claim C7.  In the final registration step, when a persisted account
already has the submitted shop domain, the insert violates the uniqueness
constraint, the transaction is rolled back, and the flow reports
"already exists": the store is returned exactly as it was — no new row, the
pre-existing row untouched. -/
theorem duplicate_domain_registration_aborts (store : List Account) (nextId : Nat)
    (pt : Option Int) (title shop_domain api_key api_password : String) (c : Account)
    (hc : c ∈ store) (hd : c.shop_domain = shop_domain) :
    TelegramBot.add_account_api_password store nextId (.ok pt)
        title shop_domain api_key api_password = (store, .alreadyExists) := by
  have hany : store.any (fun acc => acc.shop_domain == shop_domain) = true :=
    List.any_eq_true.2 ⟨c, hc, by simp [hd]⟩
  simp [TelegramBot.add_account_api_password, AccountRepository.add_account, hany]

/-- Witness for C7: re-registering `accW5.shop_domain` against a store that
already holds `accW5` aborts with the store unchanged. -/
theorem duplicate_domain_registration_aborts_witness :
    TelegramBot.add_account_api_password [accW5] 9 (.ok (some 4))
        "Copy" accW5.shop_domain "k2" "p2" = ([accW5], .alreadyExists) :=
  duplicate_domain_registration_aborts [accW5] 9 (some 4) "Copy" accW5.shop_domain
    "k2" "p2" accW5 (by simp) rfl

/-- Claim C8.  If every persisted chat satisfies `is_super_admin → is_admin`,
the invariant still holds for every chat — and for the returned row — after
any `upsert_chat` (which forces `is_admin` when `is_super_admin` is set); and
`set_admin_status` applied to a super-admin chat returns the store unchanged
together with `(chat, updated := false)`, so super-admin rights cannot be
revoked through the admin-management action. -/
theorem super_admin_invariant_preserved (store : List TelegramChat) (cid : String)
    (u f l : Option String) (ia isa : Option Bool)
    (hinv : ∀ c ∈ store, c.is_super_admin = true → c.is_admin = true) :
    (∀ c ∈ (ChatRepository.upsert_chat store cid u f l ia isa).1,
        c.is_super_admin = true → c.is_admin = true) ∧
    ((ChatRepository.upsert_chat store cid u f l ia isa).2.is_super_admin = true →
      (ChatRepository.upsert_chat store cid u f l ia isa).2.is_admin = true) ∧
    (∀ (c : TelegramChat) (b : Bool),
        store.find? (fun x => x.chat_id == c.chat_id) = some c →
        c.is_super_admin = true →
        ChatRepository.set_admin_status store c.chat_id b = (store, some c, false)) :=
  ⟨(upsert_chat_inv store cid u f l ia isa hinv).1,
   (upsert_chat_inv store cid u f l ia isa hinv).2,
   fun c b hfind hsup => set_admin_status_super store c.chat_id b c hfind hsup⟩

/-- Witness for C8: upserting a fresh chat with `is_super_admin = some true`
into a store holding the super admin keeps the invariant, and demoting the
super admin reports `updated = false` with the store unchanged. -/
theorem super_admin_invariant_preserved_witness :
    (∀ c ∈ (ChatRepository.upsert_chat [superChatW] "7" none none none
        none (some true)).1, c.is_super_admin = true → c.is_admin = true) ∧
    ChatRepository.set_admin_status [superChatW] superChatW.chat_id false =
      ([superChatW], some superChatW, false) :=
  ⟨(super_admin_invariant_preserved [superChatW] "7" none none none
      none (some true) (by decide)).1,
   (super_admin_invariant_preserved [superChatW] "7" none none none
      none (some true) (by decide)).2.2 superChatW false (by decide) rfl⟩

/-- Claim C9.  Handling `/start` for a chat whose id differs from the
configured super-admin id upserts the chat with both flags forced to false:
the previously persisted row — even one with `is_admin = true` — is replaced
by a demoted copy, and the handler reports `(is_admin, is_super_admin) =
(false, false)`. -/
theorem start_revokes_non_super_admin (said : String) (store : List TelegramChat)
    (cid : String) (u f l : Option String) (c : TelegramChat)
    (hne : cid ≠ said)
    (hfind : store.find? (fun x => x.chat_id == cid) = some c) :
    TelegramBot.register_chat said store cid u f l =
      (ChatRepository.replaceFirst (fun x => x.chat_id == cid)
        { c with username := u, first_name := f, last_name := l,
                 is_admin := false, is_super_admin := false } store,
       false, false) := by
  have hb : (cid == said) = false := by simpa using hne
  simp [TelegramBot.register_chat, ChatRepository.upsert_chat, hfind, hb,
    ChatRepository.applyFlagUpdates]

/-- Witness for C9: the granted admin "123" sends `/start` with super-admin
id "999" and loses the admin flag. -/
theorem start_revokes_non_super_admin_witness :
    TelegramBot.register_chat "999" [grantedAdminW] "123" none none none =
      (ChatRepository.replaceFirst (fun x => x.chat_id == "123")
        { grantedAdminW with username := none, first_name := none, last_name := none,
                             is_admin := false, is_super_admin := false }
        [grantedAdminW],
       false, false) :=
  start_revokes_non_super_admin "999" [grantedAdminW] "123" none none none
    grantedAdminW (by decide) rfl

/-- Claim C10.  When the fetch succeeds but reports an unknown (null) expiry
for an account whose cached `paid_till` is non-null, the sweep overwrites the
cache with null via `update_paid_till` and then skips the account with no
message. -/
theorem unknown_expiry_overwrites_cache (today : Int) (fetch : FetchFn) (a : Account)
    (d : Int) (he : a.notifications_enabled = true)
    (hf : fetch a.shop_domain a.api_key a.api_password = .ok none)
    (_hd : a.paid_till = some d) :
    PaymentNotifier.processAccount today fetch a = ({ a with paid_till := none }, none) :=
  PaymentNotifier.processAccount_unknown_overwrites today fetch a he hf

/-- Witness for C10: an account cached as expiring on day 10 is wiped to an
unknown expiry when the fetch reports null, with no message. -/
theorem unknown_expiry_overwrites_cache_witness :
    PaymentNotifier.processAccount 0 (fun _ _ _ => .ok none) accountC1 =
      ({ accountC1 with paid_till := none }, none) :=
  unknown_expiry_overwrites_cache 0 (fun _ _ _ => .ok none) accountC1 10 rfl rfl rfl

end InsalesCheck
